import Mathlib

/-!
Shallow embedding of the authentication and account-lockout subsystem of the
Attendance-Tracker backend (src/backend/controllers/authController.js, the
controller variant wired into the routes).

Conventions of the embedding:
* The users table is a `List Account`; `SELECT ... WHERE email = ?` is
  `List.find?` (first matching row), `UPDATE ... WHERE id = ?` maps the
  update over all rows with that id, `UPDATE ... WHERE email = ?` over all
  rows with that email.
* Timestamps are natural numbers (milliseconds since epoch); `new Date()` is
  the `now` argument of each operation. `new Date(null)` in JS is epoch 0,
  captured by `jsDateMs`.
* bcrypt (`hashPassword`/`comparePassword`), sha256 and the random raw reset
  token are external primitives; the operations take them as function/value
  arguments (`hash`, `verify`, `sha256`, `rawToken`).
* `sendResponse(res, status, success, message, data?)` becomes the
  `Response` structure. `notifyUser` and `sendEmail` are best-effort
  side channels with no effect on the users table or on the response, so
  they are not part of the state.
* JS falsiness of an optional string column (null or "") is `truthyStr`.
-/

namespace AuthTracker

/-- A row of the `users` table (schema in tracker_db.sql plus the
`backup_email` column added by the ALTER TABLE). -/
structure Account where
  id : Nat
  email : String
  name : Option String
  phone : Option String
  backup_email : Option String
  password_hash : String
  failed_login_attempts : Nat
  lock_until : Option Nat
  reset_token_hash : Option String
  reset_expires : Option Nat
deriving Repr, DecidableEq

/-- Response envelope of `sendResponse`; `data` carries the signed claim
`{id, email}` of the JWT on successful login, nothing otherwise. -/
structure Response where
  status : Nat
  success : Bool
  message : String
  data : Option (Nat × String)
deriving Repr, DecidableEq

def MAX_FAILED_ATTEMPTS : Nat := 3

def LOCK_DURATION_SECONDS : Nat := 30

/-- JS truthiness of a nullable string column: null and "" are falsy. -/
def truthyStr : Option String → Bool
  | some s => s != ""
  | none => false

/-- `new Date(x).getTime()` for a nullable stored timestamp: `new Date(null)`
is epoch 0. -/
def jsDateMs : Option Nat → Nat
  | some t => t
  | none => 0

/-- `x || null` applied to an optional request field before INSERT. -/
def orNull : Option String → Option String
  | some s => if s = "" then none else some s
  | none => none

/-- `SELECT * FROM users WHERE email = ?` followed by taking `rows[0]`. -/
def findByEmail (store : List Account) (email : String) : Option Account :=
  store.find? (fun u => u.email == email)

/-- `UPDATE users SET ... WHERE id = ?`. -/
def updateById (store : List Account) (i : Nat) (f : Account → Account) :
    List Account :=
  store.map (fun u => if u.id = i then f u else u)

/-- The password-strength regex of authController.js:
`^(?=.*[a-z])(?=.*[A-Z])(?=.*\d)(?=.*[special]).{8,}$` (JS, no flags).
`.` never matches a line terminator and the `.\x7b8,\x7d$` part must consume
the whole subject, so a match means: length at least 8, no line terminator,
and at least one character of each of the four classes. -/
def specialClass : List Char :=
  ['!', '@', '#', '$', '%', '^', '&', '*', '(', ')', '_', '+', '-', '=',
   '[', ']', '\x7b', '\x7d', ';', '\'', ':', '"', '\\', '|', ',', '.',
   '<', '>', '/', '?']

def isLowerAlpha (c : Char) : Bool := decide ('a' ≤ c) && decide (c ≤ 'z')

def isUpperAlpha (c : Char) : Bool := decide ('A' ≤ c) && decide (c ≤ 'Z')

def isDigitCh (c : Char) : Bool := decide ('0' ≤ c) && decide (c ≤ '9')

def isSpecialCh (c : Char) : Bool := specialClass.contains c

def isLineTerminator (c : Char) : Bool :=
  c == '\n' || c == '\r' || c == '\u2028' || c == '\u2029'

def isStrongPassword (p : String) : Bool :=
  decide (8 ≤ p.toList.length)
    && p.toList.all (fun c => !(isLineTerminator c))
    && p.toList.any isLowerAlpha
    && p.toList.any isUpperAlpha
    && p.toList.any isDigitCh
    && p.toList.any isSpecialCh

/-- registerUser of authController.js. `freshId` is the AUTO_INCREMENT id the
INSERT assigns; the row starts with the schema defaults
(failed_login_attempts 0, everything nullable NULL). -/
def registerUser (hash : String → String) (store : List Account)
    (email password : String) (name phone backup_email : Option String)
    (freshId : Nat) : Response × List Account :=
  if email = "" ∨ password = "" then
    (⟨400, false, "Email and password are required.", none⟩, store)
  else if isStrongPassword password = false then
    (⟨400, false,
      "Password must include uppercase, lowercase, number, and special character.",
      none⟩, store)
  else if (findByEmail store email).isSome then
    (⟨409, false, "User already exists.", none⟩, store)
  else
    (⟨201, true, "User registered successfully.", none⟩,
     store ++ [⟨freshId, email, orNull name, orNull phone,
               orNull backup_email, hash password, 0, none, none, none⟩])

/-- The part of loginUser after the lock guard: compare the password, then
either clear the lockout state (match) or apply the failure transition
(mismatch). -/
def loginCheckPassword (verify : String → String → Bool)
    (store : List Account) (user : Account) (password : String) (now : Nat) :
    Response × List Account :=
  if verify password user.password_hash = true then
    (⟨200, true, "Login successful.", some (user.id, user.email)⟩,
     updateById store user.id
       (fun u => { u with failed_login_attempts := 0, lock_until := none }))
  else
    (⟨401, false,
      if MAX_FAILED_ATTEMPTS ≤ user.failed_login_attempts + 1 then
        "Account locked for " ++ toString LOCK_DURATION_SECONDS
          ++ "s after " ++ toString MAX_FAILED_ATTEMPTS ++ " failed attempts."
      else "Invalid email or password.", none⟩,
     updateById store user.id
       (fun u =>
         { u with
           failed_login_attempts := user.failed_login_attempts + 1,
           lock_until :=
             if MAX_FAILED_ATTEMPTS ≤ user.failed_login_attempts + 1 then
               some (now + LOCK_DURATION_SECONDS * 1000)
             else none }))

/-- loginUser of authController.js. `verify` is `comparePassword`. -/
def loginUser (verify : String → String → Bool) (store : List Account)
    (email password : String) (now : Nat) : Response × List Account :=
  if email = "" ∨ password = "" then
    (⟨400, false, "Email and password are required.", none⟩, store)
  else
    match findByEmail store email with
    | none => (⟨401, false, "Invalid credentials.", none⟩, store)
    | some user =>
      match user.lock_until with
      | some t =>
        if now < t then
          (⟨423, false,
            "Account locked. Try again in "
              ++ toString ((t - now + 999) / 1000) ++ "s.", none⟩, store)
        else loginCheckPassword verify store user password now
      | none => loginCheckPassword verify store user password now

/-- `toLowerCase()` character by character (structural form of
`String.toLower`). -/
def lowerStr (s : String) : String := ⟨s.data.map Char.toLower⟩

/-- `x.toLowerCase()` on a nullable string (only reached when non-null). -/
def jsLower : Option String → Option String
  | some s => some (lowerStr s)
  | none => none

/-- forgotPassword of authController.js. `rawToken` is the 32-byte random
token from `crypto.randomBytes`, `sha256` its storage digest. The reset
link, the email delivery and the notification row have no effect on the
users table or the response, so only token persistence and the response are
modelled; the branch structure of the delivery-target selection is kept. -/
def forgotPassword (sha256 : String → String) (rawToken : String)
    (store : List Account) (email : String) (backupEmail : Option String)
    (now : Nat) : Response × List Account :=
  if email = "" then (⟨400, false, "Email is required.", none⟩, store)
  else
    match findByEmail store email with
    | none =>
      (⟨200, true, "If that email exists, a reset link was sent.", none⟩,
       store)
    | some user =>
      let tokenHash := sha256 rawToken
      let tokenExpiry := now + 30 * 60 * 1000
      let store1 := updateById store user.id
        (fun u => { u with reset_token_hash := some tokenHash,
                           reset_expires := some tokenExpiry })
      if truthyStr backupEmail = true then
        if truthyStr user.backup_email = false
            ∨ (jsLower user.backup_email ≠ jsLower backupEmail) then
          -- mismatched backup email: generic message, early return
          (⟨200, true, "If that email exists, a reset link was sent.", none⟩,
           store1)
        else
          -- deliver to the stored backup email, then generic message
          (⟨200, true, "If that email exists, a reset link was sent.", none⟩,
           store1)
      else
        -- deliver to the primary email, then generic message
        (⟨200, true, "If that email exists, a reset link was sent.", none⟩,
         store1)

/-- resetPassword of authController.js. Looks the account up by primary OR
backup email, validates the token digest and expiry, then updates the
password and clears the token state in one UPDATE. -/
def resetPassword (hash sha256 : String → String) (store : List Account)
    (email token newPassword : String) (now : Nat) :
    Response × List Account :=
  if email = "" ∨ token = "" ∨ newPassword = "" then
    (⟨400, false, "Email, token and new password are required.", none⟩, store)
  else if isStrongPassword newPassword = false then
    (⟨400, false,
      "Password must include uppercase, lowercase, number, and special character.",
      none⟩, store)
  else
    match store.find? (fun u => u.email == email
        || u.backup_email == some email) with
    | none =>
      (⟨400, false, "Invalid or expired reset details.", none⟩, store)
    | some user =>
      if truthyStr user.reset_token_hash = false
          ∨ user.reset_token_hash ≠ some (sha256 token)
          ∨ jsDateMs user.reset_expires < now then
        (⟨400, false, "Invalid or expired token.", none⟩, store)
      else
        (⟨200, true, "Password reset successful.", none⟩,
         updateById store user.id
           (fun u => { u with password_hash := hash newPassword,
                              reset_token_hash := none,
                              reset_expires := none }))

/-- unlockAccount of authController.js: clear the lockout state of every row
with the given email (the SELECT afterwards only feeds the notification). -/
def unlockAccount (store : List Account) (email : String) :
    Response × List Account :=
  if email = "" then (⟨400, false, "Email is required.", none⟩, store)
  else
    (⟨200, true, "Account unlocked successfully.", none⟩,
     store.map (fun u =>
       if u.email = email then
         { u with failed_login_attempts := 0, lock_until := none }
       else u))

/-! ## Concrete instances used by witnesses and counterexamples -/

/-- A concrete stand-in for bcrypt hashing. -/
def demoHash : String → String := fun p => "H:" ++ p

/-- A concrete stand-in for bcrypt comparison, matching `demoHash`. -/
def demoVerify : String → String → Bool := fun p h => h == "H:" ++ p

/-- A concrete stand-in for the sha256 digest. -/
def demoSha : String → String := fun s => "sha:" ++ s

/-- A freshly registered demo account with password `Abcdef1!`. -/
def baseAcct : Account :=
  ⟨1, "a@x.com", none, none, none, "H:Abcdef1!", 0, none, none, none⟩

/-- The demo account after two failed login attempts. -/
def twoFailsAcct : Account := { baseAcct with failed_login_attempts := 2 }

/-- The demo account locked until timestamp 31000 after three failures. -/
def lockedAcct : Account :=
  { baseAcct with failed_login_attempts := 3, lock_until := some 31000 }

/-! ## Helper lemmas -/

/-- `find?` after an update-by-id, for predicates the update cannot change. -/
theorem find?_updateById (s : List Account) (i : Nat) (f : Account → Account)
    (p : Account → Bool) (hp : ∀ u, p (f u) = p u) :
    (updateById s i f).find? p
      = (s.find? p).map (fun u => if u.id = i then f u else u) := by
  unfold updateById
  rw [List.find?_map]
  have hpe : (p ∘ fun u => if u.id = i then f u else u) = p := by
    funext u
    by_cases h : u.id = i <;> simp [h, hp]
  rw [hpe]

/-! ## Claim C1 -/

/-- Claim C1: for an account whose `lockUntil` is strictly in the future,
login (with any password, in particular the correct one) is rejected with
the 423 Locked response carrying the remaining seconds, the store is left
unchanged (so `failedLoginAttempts` is not incremented), and the result does
not depend on the password verifier at all (the hasher is not consulted). -/
theorem C1_locked_login_rejected (verify verify2 : String → String → Bool)
    (s : List Account) (email password : String) (now t : Nat)
    (user : Account) (he : email ≠ "") (hp : password ≠ "")
    (hf : findByEmail s email = some user)
    (hl : user.lock_until = some t) (ht : now < t) :
    loginUser verify s email password now =
      (⟨423, false,
        "Account locked. Try again in "
          ++ toString ((t - now + 999) / 1000) ++ "s.", none⟩, s)
    ∧ loginUser verify s email password now
        = loginUser verify2 s email password now := by
  have key : ∀ v : String → String → Bool,
      loginUser v s email password now =
        (⟨423, false,
          "Account locked. Try again in "
            ++ toString ((t - now + 999) / 1000) ++ "s.", none⟩, s) := by
    intro v
    unfold loginUser
    rw [if_neg (not_or.mpr ⟨he, hp⟩)]
    simp only [hf, hl]
    rw [if_pos ht]
  exact ⟨key verify, (key verify).trans (key verify2).symm⟩

/-- Witness for C1 at a concrete locked store and the correct password. -/
theorem C1_locked_login_rejected_witness :
    loginUser demoVerify [lockedAcct] "a@x.com" "Abcdef1!" 1000 =
      (⟨423, false,
        "Account locked. Try again in "
          ++ toString ((31000 - 1000 + 999) / 1000) ++ "s.", none⟩,
       [lockedAcct])
    ∧ loginUser demoVerify [lockedAcct] "a@x.com" "Abcdef1!" 1000
        = loginUser (fun _ _ => true) [lockedAcct] "a@x.com" "Abcdef1!" 1000 :=
  C1_locked_login_rejected demoVerify (fun _ _ => true) [lockedAcct]
    "a@x.com" "Abcdef1!" 1000 31000 lockedAcct (by decide) (by decide)
    (by decide) (by decide) (by decide)

/-! ## Claim C2 -/

/-- Counterexample to claim C2: an account with 2 failed attempts and a
wrong password reaches the threshold (the persisted count becomes 3 and
`lockUntil` is set to now + 30s), yet the response status is 401, not the
423 Locked response the claim requires. -/
theorem C2_counterexample :
    (loginUser demoVerify [twoFailsAcct] "a@x.com" "wrong" 1000).2
      = [{ twoFailsAcct with failed_login_attempts := 3,
                             lock_until := some 31000 }]
    ∧ (loginUser demoVerify [twoFailsAcct] "a@x.com" "wrong" 1000).1.status
        = 401
    ∧ (loginUser demoVerify [twoFailsAcct] "a@x.com" "wrong" 1000).1.status
        ≠ 423 := by
  decide

/-- Claim C2 as amended: on a password mismatch for an existing account that
is not currently locked, login persists `failedLoginAttempts + 1`; if the
new count reaches 3 it also sets `lockUntil` to now + 30 seconds, otherwise
`lockUntil` becomes null. In both cases the HTTP status is 401 — the
threshold case differs only by the distinct lock message (which states the
fixed 30s duration, not a remaining-seconds value); no 423 is returned. -/
theorem C2_failed_login_transition (verify : String → String → Bool)
    (s : List Account) (email password : String) (now : Nat)
    (user : Account) (he : email ≠ "") (hp : password ≠ "")
    (hf : findByEmail s email = some user)
    (hnl : ∀ t, user.lock_until = some t → t ≤ now)
    (hv : verify password user.password_hash = false) :
    loginUser verify s email password now =
      (⟨401, false,
        if MAX_FAILED_ATTEMPTS ≤ user.failed_login_attempts + 1 then
          "Account locked for 30s after 3 failed attempts."
        else "Invalid email or password.", none⟩,
       updateById s user.id
         (fun u =>
           { u with
             failed_login_attempts := user.failed_login_attempts + 1,
             lock_until :=
               if MAX_FAILED_ATTEMPTS ≤ user.failed_login_attempts + 1 then
                 some (now + LOCK_DURATION_SECONDS * 1000)
               else none })) := by
  have hcheck : loginCheckPassword verify s user password now =
      (⟨401, false,
        if MAX_FAILED_ATTEMPTS ≤ user.failed_login_attempts + 1 then
          "Account locked for 30s after 3 failed attempts."
        else "Invalid email or password.", none⟩,
       updateById s user.id
         (fun u =>
           { u with
             failed_login_attempts := user.failed_login_attempts + 1,
             lock_until :=
               if MAX_FAILED_ATTEMPTS ≤ user.failed_login_attempts + 1 then
                 some (now + LOCK_DURATION_SECONDS * 1000)
               else none })) := by
    unfold loginCheckPassword
    rw [if_neg (by simp [hv])]
    split_ifs <;> rfl
  unfold loginUser
  rw [if_neg (not_or.mpr ⟨he, hp⟩)]
  simp only [hf]
  rcases hul : user.lock_until with _ | t
  · exact hcheck
  · dsimp only
    rw [if_neg (Nat.not_lt.mpr (hnl t hul))]
    exact hcheck

/-- Witness for the amended C2 at the concrete threshold-reaching input of
the counterexample. -/
theorem C2_failed_login_transition_witness :
    loginUser demoVerify [twoFailsAcct] "a@x.com" "wrong" 1000 =
      (⟨401, false, "Account locked for 30s after 3 failed attempts.",
        none⟩,
       [{ twoFailsAcct with failed_login_attempts := 3,
                            lock_until := some 31000 }]) :=
  (C2_failed_login_transition demoVerify [twoFailsAcct] "a@x.com" "wrong"
    1000 twoFailsAcct (by decide) (by decide) (by decide)
    (fun t h => Option.noConfusion h) (by decide)).trans (by decide)

/-! ## Claim C4 -/

/-- Every `forgotPassword` call with a non-empty email gets the one generic
200 response, on every branch of the function. -/
theorem forgot_generic_response (sha : String → String) (tok : String)
    (s : List Account) (email : String) (be : Option String) (now : Nat)
    (he : email ≠ "") :
    (forgotPassword sha tok s email be now).1 =
      ⟨200, true, "If that email exists, a reset link was sent.", none⟩ := by
  unfold forgotPassword
  rw [if_neg he]
  rcases hfind : findByEmail s email with _ | user
  · rfl
  · dsimp only
    split_ifs <;> rfl

/-- Claim C4: `ForgotPassword` on a registered email and on an unregistered
email return identical responses (same status 200, same generic message),
so the response does not reveal whether the account exists. -/
theorem C4_forgot_antienumeration (sha : String → String) (tok : String)
    (s : List Account) (e1 e2 : String) (be1 be2 : Option String)
    (now1 now2 : Nat) (u1 : Account) (h1 : e1 ≠ "") (h2 : e2 ≠ "")
    (_hreg : findByEmail s e1 = some u1)
    (_hunreg : findByEmail s e2 = none) :
    (forgotPassword sha tok s e1 be1 now1).1
      = (forgotPassword sha tok s e2 be2 now2).1
    ∧ (forgotPassword sha tok s e1 be1 now1).1.status = 200 :=
  ⟨(forgot_generic_response sha tok s e1 be1 now1 h1).trans
      (forgot_generic_response sha tok s e2 be2 now2 h2).symm,
   by rw [forgot_generic_response sha tok s e1 be1 now1 h1]⟩

/-- Witness for C4: a store where `a@x.com` is registered and `b@x.com` is
not. -/
theorem C4_forgot_antienumeration_witness :
    (forgotPassword demoSha "tok" [baseAcct] "a@x.com" none 0).1
      = (forgotPassword demoSha "tok" [baseAcct] "b@x.com" none 7).1
    ∧ (forgotPassword demoSha "tok" [baseAcct] "a@x.com" none 0).1.status
        = 200 :=
  C4_forgot_antienumeration demoSha "tok" [baseAcct] "a@x.com" "b@x.com"
    none none 0 7 baseAcct (by decide) (by decide) (by decide) (by decide)

/-! ## Claim C7 -/

/-- The demo account with a stored backup email. -/
def backupAcct : Account := { baseAcct with backup_email := some "b@x.com" }

/-- Claim C7 (the bug the design notes call out): calling `forgotPassword`
with a backup email that does not match the stored one does return the
generic message, but the new token digest and expiry have already been
persisted — the token state is NOT left unchanged, contradicting the
claimed (and spec-intended) order of validation before mutation. -/
theorem C7_token_persisted_despite_mismatch :
    (forgotPassword demoSha "tok" [backupAcct] "a@x.com" (some "c@x.com")
        0).1
      = ⟨200, true, "If that email exists, a reset link was sent.", none⟩
    ∧ (forgotPassword demoSha "tok" [backupAcct] "a@x.com" (some "c@x.com")
          0).2
        = [{ backupAcct with reset_token_hash := some (demoSha "tok"),
                             reset_expires := some 1800000 }]
    ∧ backupAcct.reset_token_hash = none
    ∧ backupAcct.reset_expires = none := by
  decide

/-! ## Claim C9 -/

/-- After `unlockAccount`, every row carrying the given email has its
lockout state cleared. Shared helper (also used for claim C3). -/
theorem unlock_clears_mem (s : List Account) (email : String)
    (he : email ≠ "") :
    ∀ u ∈ (unlockAccount s email).2, u.email = email →
      u.failed_login_attempts = 0 ∧ u.lock_until = none := by
  intro u hu hmail
  unfold unlockAccount at hu
  rw [if_neg he] at hu
  dsimp only at hu
  rcases List.mem_map.mp hu with ⟨v, hv, rfl⟩
  by_cases h : v.email = email
  · rw [if_pos h]
    exact ⟨rfl, rfl⟩
  · rw [if_neg h] at hmail ⊢
    exact absurd hmail h

/-- Claim C9: `unlockAccount` with a non-empty email always answers the 200
success response; matching rows get counter 0 and `lockUntil` null; when no
row matches the store is untouched (silent no-op); and a second call leaves
the same state as the first (idempotence). -/
theorem C9_unlock_idempotent_noop (s : List Account) (email : String)
    (he : email ≠ "") :
    (unlockAccount s email).1
      = ⟨200, true, "Account unlocked successfully.", none⟩
    ∧ (∀ u ∈ (unlockAccount s email).2, u.email = email →
        u.failed_login_attempts = 0 ∧ u.lock_until = none)
    ∧ (findByEmail s email = none → (unlockAccount s email).2 = s)
    ∧ (unlockAccount (unlockAccount s email).2 email).2
        = (unlockAccount s email).2 := by
  refine ⟨?_, unlock_clears_mem s email he, ?_, ?_⟩
  · unfold unlockAccount
    rw [if_neg he]
  · intro hnone
    unfold findByEmail at hnone
    rw [List.find?_eq_none] at hnone
    unfold unlockAccount
    rw [if_neg he]
    dsimp only
    have : ∀ v ∈ s,
        (if v.email = email then
          { v with failed_login_attempts := 0, lock_until := none }
        else v) = v := by
      intro v hv
      rw [if_neg]
      intro hveq
      exact hnone v hv (by simp [hveq])
    rw [List.map_congr_left this, List.map_id']
  · simp only [unlockAccount, if_neg he]
    rw [List.map_map]
    apply List.map_congr_left
    intro v _
    by_cases h : v.email = email <;> simp [Function.comp, h]

/-- Witness for C9 on a concrete locked store. -/
theorem C9_unlock_idempotent_noop_witness :
    (unlockAccount [lockedAcct] "a@x.com").1
      = ⟨200, true, "Account unlocked successfully.", none⟩
    ∧ (∀ u ∈ (unlockAccount [lockedAcct] "a@x.com").2, u.email = "a@x.com" →
        u.failed_login_attempts = 0 ∧ u.lock_until = none)
    ∧ (findByEmail [lockedAcct] "a@x.com" = none →
        (unlockAccount [lockedAcct] "a@x.com").2 = [lockedAcct])
    ∧ (unlockAccount (unlockAccount [lockedAcct] "a@x.com").2 "a@x.com").2
        = (unlockAccount [lockedAcct] "a@x.com").2 :=
  C9_unlock_idempotent_noop [lockedAcct] "a@x.com" (by decide)

/-! ## Claim C10 -/

/-- The account fields other than `password_hash`, `reset_token_hash` and
`reset_expires`: id, email, name, phone, backup email, failed-attempt
counter and lock timestamp. -/
def frameFields (u : Account) :
    Nat × String × Option String × Option String × Option String × Nat
      × Option Nat :=
  (u.id, u.email, u.name, u.phone, u.backup_email,
   u.failed_login_attempts, u.lock_until)

/-- Claim C10: a successful `resetPassword` changes only `password_hash`,
`reset_token_hash` and `reset_expires` of the affected row — every other
field of every row (in particular `failedLoginAttempts` and `lockUntil`, so
an existing lock survives the reset) is exactly as before. -/
theorem C10_reset_frame (hash sha : String → String) (s : List Account)
    (email token npw : String) (now : Nat)
    (h200 : (resetPassword hash sha s email token npw now).1.status = 200) :
    ((resetPassword hash sha s email token npw now).2).map frameFields
      = s.map frameFields := by
  unfold resetPassword at h200 ⊢
  by_cases h1 : (email = "" ∨ token = "" ∨ npw = "")
  · rw [if_pos h1] at h200
    simp at h200
  rw [if_neg h1] at h200 ⊢
  by_cases h2 : isStrongPassword npw = false
  · rw [if_pos h2] at h200
    simp at h200
  rw [if_neg h2] at h200 ⊢
  rcases hfind : s.find?
      (fun u => u.email == email || u.backup_email == some email)
    with _ | user
  · rw [hfind] at h200
    simp at h200
  rw [hfind] at h200 ⊢
  dsimp only at h200 ⊢
  by_cases h3 : (truthyStr user.reset_token_hash = false
      ∨ user.reset_token_hash ≠ some (sha token)
      ∨ jsDateMs user.reset_expires < now)
  · rw [if_pos h3] at h200
    simp at h200
  rw [if_neg h3]
  unfold updateById
  rw [List.map_map]
  apply List.map_congr_left
  intro v _
  by_cases h : v.id = user.id <;> simp [Function.comp, frameFields, h]

/-- The demo account holding a valid reset token (digest of `"tok"` under
`demoSha`) that expires at timestamp 10000. -/
def resetAcct : Account :=
  { baseAcct with reset_token_hash := some "sha:tok",
                  reset_expires := some 10000 }

/-- Witness for C10: a concrete successful reset. -/
theorem C10_reset_frame_witness :
    ((resetPassword demoHash demoSha [resetAcct] "a@x.com" "tok" "Xyzw9$aa"
        0).2).map frameFields
      = [resetAcct].map frameFields :=
  C10_reset_frame demoHash demoSha [resetAcct] "a@x.com" "tok" "Xyzw9$aa" 0
    (by decide)

/-! ## Claim C8 -/

/-- The ways a password can violate the strength policy named by the spec:
too short, or missing an uppercase letter, a lowercase letter, a digit, or
a special character (the character class of the source regex). -/
def violatesPolicy (p : String) : Prop :=
  p.toList.length < 8
    ∨ (∀ c ∈ p.toList, isUpperAlpha c = false)
    ∨ (∀ c ∈ p.toList, isLowerAlpha c = false)
    ∨ (∀ c ∈ p.toList, isDigitCh c = false)
    ∨ (∀ c ∈ p.toList, isSpecialCh c = false)

/-- A password violating the policy never passes the strength regex. -/
theorem violatesPolicy_not_strong (p : String) (hv : violatesPolicy p) :
    isStrongPassword p = false := by
  cases hq : isStrongPassword p
  · rfl
  · exfalso
    unfold isStrongPassword at hq
    simp only [Bool.and_eq_true, decide_eq_true_eq, List.any_eq_true,
      List.all_eq_true] at hq
    obtain ⟨⟨⟨⟨⟨hlen, _⟩, cl, hcl, hcl2⟩, cu, hcu, hcu2⟩, cd, hcd, hcd2⟩,
      cs2, hcs, hcs2⟩ := hq
    rcases hv with h | h | h | h | h
    · omega
    · rw [h cu hcu] at hcu2
      exact Bool.false_ne_true hcu2
    · rw [h cl hcl] at hcl2
      exact Bool.false_ne_true hcl2
    · rw [h cd hcd] at hcd2
      exact Bool.false_ne_true hcd2
    · rw [h cs2 hcs] at hcs2
      exact Bool.false_ne_true hcs2

/-- Claim C8: any password violating the strength policy is rejected with a
400 response by `registerUser` (no account created) and by `resetPassword`
(no stored password changed) — the store is returned untouched by both. -/
theorem C8_weak_password_rejected (p : String) (hv : violatesPolicy p) :
    (∀ (hash : String → String) (s : List Account) (email : String)
        (name phone be : Option String) (fid : Nat),
      (registerUser hash s email p name phone be fid).1.status = 400
      ∧ (registerUser hash s email p name phone be fid).2 = s)
    ∧ (∀ (hash sha : String → String) (s : List Account)
        (email token : String) (now : Nat),
      (resetPassword hash sha s email token p now).1.status = 400
      ∧ (resetPassword hash sha s email token p now).2 = s) := by
  have hw : isStrongPassword p = false := violatesPolicy_not_strong p hv
  constructor
  · intro hash s email name phone be fid
    unfold registerUser
    by_cases h1 : (email = "" ∨ p = "")
    · rw [if_pos h1]
      exact ⟨rfl, rfl⟩
    · rw [if_neg h1, if_pos hw]
      exact ⟨rfl, rfl⟩
  · intro hash sha s email token now
    unfold resetPassword
    by_cases h1 : (email = "" ∨ token = "" ∨ p = "")
    · rw [if_pos h1]
      exact ⟨rfl, rfl⟩
    · rw [if_neg h1, if_pos hw]
      exact ⟨rfl, rfl⟩

/-- Witness for C8 at the weak password `"short"` of the spec's test list. -/
theorem C8_weak_password_rejected_witness :
    ((registerUser demoHash [] "a@x.com" "short" none none none 1).1.status
        = 400
      ∧ (registerUser demoHash [] "a@x.com" "short" none none none 1).2
          = [])
    ∧ ((resetPassword demoHash demoSha [resetAcct] "a@x.com" "tok" "short"
          0).1.status = 400
      ∧ (resetPassword demoHash demoSha [resetAcct] "a@x.com" "tok" "short"
          0).2 = [resetAcct]) := by
  have h := C8_weak_password_rejected "short" (Or.inl (by decide))
  exact ⟨h.1 demoHash [] "a@x.com" none none none 1,
         h.2 demoHash demoSha [resetAcct] "a@x.com" "tok" 0⟩

/-! ## Claim C6 -/

/-- The demo account whose valid reset token expires exactly at
timestamp 5000. -/
def boundaryAcct : Account :=
  { baseAcct with reset_token_hash := some "sha:tok",
                  reset_expires := some 5000 }

/-- Counterexample to claim C6: with a stored digest that matches the
presented token exactly and `now` equal to `resetExpires` (5000), the code
accepts the reset (status 200) instead of failing InvalidToken — the code
rejects only when `resetExpires < now`, strictly. -/
theorem C6_counterexample :
    boundaryAcct.reset_token_hash = some (demoSha "tok")
    ∧ boundaryAcct.reset_expires = some 5000
    ∧ (resetPassword demoHash demoSha [boundaryAcct] "a@x.com" "tok"
        "Xyzw9$aa" 5000).1.status = 200
    ∧ (resetPassword demoHash demoSha [boundaryAcct] "a@x.com" "tok"
        "Xyzw9$aa" 5000).1.status ≠ 400 := by
  decide

/-- Claim C6 as amended: for an account found by primary or backup email,
`resetPassword` fails with the 400 InvalidToken response and an untouched
store exactly when the stored `resetTokenHash` is absent (null or empty),
the digest of the presented token differs from the stored one, or `now` is
strictly after `resetExpires`; a token whose digest matches and whose
expiry equals `now` is still accepted. -/
theorem C6_reset_token_validation (hash sha : String → String)
    (s : List Account) (email token npw : String) (now : Nat)
    (user : Account) (he : email ≠ "") (htk : token ≠ "") (hnp : npw ≠ "")
    (hst : isStrongPassword npw = true)
    (hf : s.find? (fun u => u.email == email || u.backup_email == some email)
        = some user) :
    ((truthyStr user.reset_token_hash = false
        ∨ user.reset_token_hash ≠ some (sha token)
        ∨ jsDateMs user.reset_expires < now) →
      resetPassword hash sha s email token npw now =
        (⟨400, false, "Invalid or expired token.", none⟩, s))
    ∧ (user.reset_token_hash = some (sha token) →
        truthyStr user.reset_token_hash = true →
        jsDateMs user.reset_expires = now →
        (resetPassword hash sha s email token npw now).1.status = 200) := by
  have hpre : ¬(email = "" ∨ token = "" ∨ npw = "") := by
    push_neg
    exact ⟨he, htk, hnp⟩
  have hstrong : ¬(isStrongPassword npw = false) := by
    rw [hst]
    decide
  constructor
  · intro hbad
    unfold resetPassword
    rw [if_neg hpre, if_neg hstrong, hf]
    dsimp only
    rw [if_pos hbad]
  · intro hmatch htruthy hexp
    have hgood : ¬(truthyStr user.reset_token_hash = false
        ∨ user.reset_token_hash ≠ some (sha token)
        ∨ jsDateMs user.reset_expires < now) := by
      push_neg
      refine ⟨?_, hmatch, ?_⟩
      · rw [htruthy]
        decide
      · rw [hexp]
    unfold resetPassword
    rw [if_neg hpre, if_neg hstrong, hf]
    dsimp only
    rw [if_neg hgood]

/-- Witness for the amended C6: the matching token at the expiry instant is
accepted; a wrong token is rejected with the store untouched. -/
theorem C6_reset_token_validation_witness :
    (resetPassword demoHash demoSha [boundaryAcct] "a@x.com" "tok"
        "Xyzw9$aa" 5000).1.status = 200
    ∧ resetPassword demoHash demoSha [boundaryAcct] "a@x.com" "bad"
        "Xyzw9$aa" 5000 =
      (⟨400, false, "Invalid or expired token.", none⟩, [boundaryAcct]) :=
  ⟨(C6_reset_token_validation demoHash demoSha [boundaryAcct] "a@x.com"
      "tok" "Xyzw9$aa" 5000 boundaryAcct (by decide) (by decide) (by decide)
      (by decide) (by decide)).2 (by decide) (by decide) (by decide),
   (C6_reset_token_validation demoHash demoSha [boundaryAcct] "a@x.com"
      "bad" "Xyzw9$aa" 5000 boundaryAcct (by decide) (by decide) (by decide)
      (by decide) (by decide)).1 (Or.inr (Or.inl (by decide)))⟩

/-! ## Claim C5 -/

/-- Claim C5: a reset token is single-use. If a `resetPassword` call
succeeds (status 200), a second call presenting the same raw token (with
any acceptable new password, at any later or earlier time, under any
hasher) fails with the 400 InvalidToken response and leaves the store of
the first call unchanged, because the success cleared `resetTokenHash` and
`resetExpires` in the same update as the password write. -/
theorem C5_token_single_use (hash1 hash2 sha : String → String)
    (s : List Account) (email token npw npw2 : String) (now1 now2 : Nat)
    (h200 : (resetPassword hash1 sha s email token npw now1).1.status = 200)
    (hst2 : isStrongPassword npw2 = true) (hnp2 : npw2 ≠ "") :
    (resetPassword hash2 sha
        ((resetPassword hash1 sha s email token npw now1).2) email token
        npw2 now2).1
      = ⟨400, false, "Invalid or expired token.", none⟩
    ∧ (resetPassword hash2 sha
        ((resetPassword hash1 sha s email token npw now1).2) email token
        npw2 now2).2
      = (resetPassword hash1 sha s email token npw now1).2 := by
  unfold resetPassword at h200 ⊢
  by_cases h1 : (email = "" ∨ token = "" ∨ npw = "")
  · rw [if_pos h1] at h200
    simp at h200
  rw [if_neg h1] at h200 ⊢
  by_cases h2 : isStrongPassword npw = false
  · rw [if_pos h2] at h200
    simp at h200
  rw [if_neg h2] at h200 ⊢
  rcases hfind : s.find?
      (fun u => u.email == email || u.backup_email == some email)
    with _ | user
  · rw [hfind] at h200
    simp at h200
  rw [hfind] at h200 ⊢
  dsimp only at h200 ⊢
  by_cases h3 : (truthyStr user.reset_token_hash = false
      ∨ user.reset_token_hash ≠ some (sha token)
      ∨ jsDateMs user.reset_expires < now1)
  · rw [if_pos h3] at h200
    simp at h200
  rw [if_neg h3]
  dsimp only
  have hpre2 : ¬(email = "" ∨ token = "" ∨ npw2 = "") := by
    push_neg at h1 ⊢
    exact ⟨h1.1, h1.2.1, hnp2⟩
  rw [if_neg hpre2, if_neg (by rw [hst2]; decide)]
  have hfind2 : (updateById s user.id
      (fun u => { u with password_hash := hash1 npw,
                         reset_token_hash := none,
                         reset_expires := none })).find?
        (fun u => u.email == email || u.backup_email == some email)
      = some { user with password_hash := hash1 npw,
                         reset_token_hash := none,
                         reset_expires := none } := by
    rw [find?_updateById s user.id
        (fun u => { u with password_hash := hash1 npw,
                           reset_token_hash := none,
                           reset_expires := none })
        (fun u => u.email == email || u.backup_email == some email)
        (fun u => rfl), hfind]
    simp
  rw [hfind2]
  dsimp only
  have hbad2 : ((truthyStr (none : Option String) = false)
      ∨ (none : Option String) ≠ some (sha token)
      ∨ jsDateMs (none : Option Nat) < now2) := Or.inl rfl
  rw [if_pos hbad2]
  exact ⟨rfl, rfl⟩

/-- Witness for C5: a concrete successful reset followed by a replay of the
same token. -/
theorem C5_token_single_use_witness :
    (resetPassword demoHash demoSha
        ((resetPassword demoHash demoSha [resetAcct] "a@x.com" "tok"
          "Xyzw9$aa" 0).2) "a@x.com" "tok" "Xyzw9$aa" 9).1
      = ⟨400, false, "Invalid or expired token.", none⟩
    ∧ (resetPassword demoHash demoSha
        ((resetPassword demoHash demoSha [resetAcct] "a@x.com" "tok"
          "Xyzw9$aa" 0).2) "a@x.com" "tok" "Xyzw9$aa" 9).2
      = (resetPassword demoHash demoSha [resetAcct] "a@x.com" "tok"
          "Xyzw9$aa" 0).2 :=
  C5_token_single_use demoHash demoHash demoSha [resetAcct] "a@x.com" "tok"
    "Xyzw9$aa" "Xyzw9$aa" 0 9 (by decide) (by decide) (by decide)

/-! ## Claim C3 -/

/-- Lock/counter consistency of one row: a lock timestamp may only be
present once the failed-attempt counter has reached the threshold. -/
def lockConsistent (u : Account) : Prop :=
  u.lock_until ≠ none → MAX_FAILED_ATTEMPTS ≤ u.failed_login_attempts

instance (u : Account) : Decidable (lockConsistent u) := by
  unfold lockConsistent
  infer_instance

/-- Lock/counter consistency of every row of the store. -/
def storeConsistent (s : List Account) : Prop := ∀ u ∈ s, lockConsistent u

instance (s : List Account) : Decidable (storeConsistent s) := by
  unfold storeConsistent
  infer_instance

/-- The stores reachable from the empty users table through the five
operations of the auth controller, with arbitrary primitives and inputs. -/
inductive Reachable : List Account → Prop where
  | init : Reachable []
  | register (hash : String → String) (s : List Account)
      (email password : String) (name phone be : Option String)
      (fid : Nat) : Reachable s →
      Reachable (registerUser hash s email password name phone be fid).2
  | login (verify : String → String → Bool) (s : List Account)
      (email password : String) (now : Nat) :
      Reachable s → Reachable (loginUser verify s email password now).2
  | forgot (sha : String → String) (tok : String) (s : List Account)
      (email : String) (be : Option String) (now : Nat) :
      Reachable s → Reachable (forgotPassword sha tok s email be now).2
  | reset (hash sha : String → String) (s : List Account)
      (email token npw : String) (now : Nat) :
      Reachable s →
      Reachable (resetPassword hash sha s email token npw now).2
  | unlock (s : List Account) (email : String) :
      Reachable s → Reachable (unlockAccount s email).2

/-- An update-by-id preserves store consistency when the row update
preserves row consistency. -/
theorem storeConsistent_updateById (s : List Account) (i : Nat)
    (f : Account → Account) (hs : storeConsistent s)
    (hf : ∀ u, lockConsistent u → lockConsistent (f u)) :
    storeConsistent (updateById s i f) := by
  unfold storeConsistent updateById
  intro u hu
  rcases List.mem_map.mp hu with ⟨v, hv, rfl⟩
  by_cases h : v.id = i
  · rw [if_pos h]
    exact hf v (hs v hv)
  · rw [if_neg h]
    exact hs v hv

/-- A row with counter 0 and no lock is consistent. -/
theorem lockConsistent_clear (u : Account) :
    lockConsistent
      { u with failed_login_attempts := 0, lock_until := none } := by
  unfold lockConsistent
  intro h
  exact absurd rfl h

/-- The password-check half of login preserves store consistency. -/
theorem storeConsistent_loginCheck (verify : String → String → Bool)
    (s : List Account) (user : Account) (password : String) (now : Nat)
    (hs : storeConsistent s) :
    storeConsistent (loginCheckPassword verify s user password now).2 := by
  unfold loginCheckPassword
  split_ifs with h hmax
  · exact storeConsistent_updateById s user.id _ hs
      (fun u _ => lockConsistent_clear u)
  · apply storeConsistent_updateById s user.id _ hs
    intro u _
    unfold lockConsistent
    intro _
    exact hmax
  · apply storeConsistent_updateById s user.id _ hs
    intro u _
    unfold lockConsistent
    intro hlock
    exact absurd rfl hlock

/-- `registerUser` preserves store consistency. -/
theorem storeConsistent_register (hash : String → String)
    (s : List Account) (email password : String)
    (name phone be : Option String) (fid : Nat) (hs : storeConsistent s) :
    storeConsistent
      (registerUser hash s email password name phone be fid).2 := by
  unfold registerUser
  split_ifs
  · exact hs
  · exact hs
  · exact hs
  · unfold storeConsistent
    intro u hu
    rcases List.mem_append.mp hu with h | h
    · exact hs u h
    · rcases List.mem_singleton.mp h with rfl
      unfold lockConsistent
      intro hlock
      exact absurd rfl hlock

/-- `loginUser` preserves store consistency. -/
theorem storeConsistent_login (verify : String → String → Bool)
    (s : List Account) (email password : String) (now : Nat)
    (hs : storeConsistent s) :
    storeConsistent (loginUser verify s email password now).2 := by
  unfold loginUser
  by_cases h1 : (email = "" ∨ password = "")
  · rw [if_pos h1]
    exact hs
  rw [if_neg h1]
  rcases hfind : findByEmail s email with _ | user
  · try rw [hfind]
    exact hs
  try rw [hfind]
  try dsimp only
  rcases hul : user.lock_until with _ | t
  · try rw [hul]
    exact storeConsistent_loginCheck verify s user password now hs
  · try rw [hul]
    try dsimp only
    by_cases h2 : now < t
    · rw [if_pos h2]
      exact hs
    · rw [if_neg h2]
      exact storeConsistent_loginCheck verify s user password now hs

/-- `forgotPassword` preserves store consistency (it never touches the
lockout fields). -/
theorem storeConsistent_forgot (sha : String → String) (tok : String)
    (s : List Account) (email : String) (be : Option String) (now : Nat)
    (hs : storeConsistent s) :
    storeConsistent (forgotPassword sha tok s email be now).2 := by
  unfold forgotPassword
  by_cases h1 : email = ""
  · rw [if_pos h1]
    exact hs
  rw [if_neg h1]
  rcases hfind : findByEmail s email with _ | user
  · try rw [hfind]
    exact hs
  try rw [hfind]
  try dsimp only
  have hkey : storeConsistent (updateById s user.id
      (fun u => { u with reset_token_hash := some (sha tok),
                         reset_expires := some (now + 30 * 60 * 1000) })) := by
    apply storeConsistent_updateById s user.id _ hs
    intro u hu
    unfold lockConsistent at hu ⊢
    intro hlock
    exact hu hlock
  split_ifs <;> exact hkey

/-- `resetPassword` preserves store consistency (it never touches the
lockout fields). -/
theorem storeConsistent_reset (hash sha : String → String)
    (s : List Account) (email token npw : String) (now : Nat)
    (hs : storeConsistent s) :
    storeConsistent (resetPassword hash sha s email token npw now).2 := by
  unfold resetPassword
  by_cases h1 : (email = "" ∨ token = "" ∨ npw = "")
  · rw [if_pos h1]
    exact hs
  rw [if_neg h1]
  by_cases h2 : isStrongPassword npw = false
  · rw [if_pos h2]
    exact hs
  rw [if_neg h2]
  rcases hfind : s.find?
      (fun u => u.email == email || u.backup_email == some email)
    with _ | user
  · try rw [hfind]
    exact hs
  try rw [hfind]
  try dsimp only
  by_cases h3 : (truthyStr user.reset_token_hash = false
      ∨ user.reset_token_hash ≠ some (sha token)
      ∨ jsDateMs user.reset_expires < now)
  · rw [if_pos h3]
    exact hs
  · rw [if_neg h3]
    apply storeConsistent_updateById s user.id _ hs
    intro u hu
    unfold lockConsistent at hu ⊢
    intro hlock
    exact hu hlock

/-- `unlockAccount` preserves store consistency. -/
theorem storeConsistent_unlock (s : List Account) (email : String)
    (hs : storeConsistent s) :
    storeConsistent (unlockAccount s email).2 := by
  unfold unlockAccount
  by_cases h1 : email = ""
  · rw [if_pos h1]
    exact hs
  rw [if_neg h1]
  unfold storeConsistent
  intro u hu
  rcases List.mem_map.mp hu with ⟨v, hv, rfl⟩
  by_cases h : v.email = email
  · rw [if_pos h]
    exact lockConsistent_clear v
  · rw [if_neg h]
    exact hs v hv

/-- On a successful password check, the logged-in row (every row with the
found user id) is cleared to counter 0 and no lock. -/
theorem loginCheck_success_clears (verify : String → String → Bool)
    (s : List Account) (user : Account) (password : String) (now : Nat)
    (h200 : (loginCheckPassword verify s user password now).1.status
      = 200) :
    ∀ u ∈ (loginCheckPassword verify s user password now).2,
      u.id = user.id →
      u.failed_login_attempts = 0 ∧ u.lock_until = none := by
  intro u hu hid
  unfold loginCheckPassword at h200 hu
  by_cases hv : verify password user.password_hash = true
  · rw [if_pos hv] at hu
    dsimp only at hu
    unfold updateById at hu
    rcases List.mem_map.mp hu with ⟨v, hv2, rfl⟩
    by_cases h : v.id = user.id
    · rw [if_pos h]
      exact ⟨rfl, rfl⟩
    · rw [if_neg h] at hid ⊢
      exact absurd hid h
  · rw [if_neg hv] at h200
    simp at h200

/-- Claim C3: in every store reachable through the five operations the
lockout fields are consistent (`lockUntil` non-null only with the counter
at the threshold 3 or beyond), and both fields are cleared together — to 0
and null — by a successful login (for the logged-in account) and by an
unlock (for every account with that email). -/
theorem C3_lock_counter_consistency :
    (∀ s, Reachable s → storeConsistent s)
    ∧ (∀ (verify : String → String → Bool) (s : List Account)
        (email password : String) (now : Nat) (user : Account),
        findByEmail s email = some user →
        (loginUser verify s email password now).1.status = 200 →
        ∀ u ∈ (loginUser verify s email password now).2, u.id = user.id →
          u.failed_login_attempts = 0 ∧ u.lock_until = none)
    ∧ (∀ (s : List Account) (email : String), email ≠ "" →
        ∀ u ∈ (unlockAccount s email).2, u.email = email →
          u.failed_login_attempts = 0 ∧ u.lock_until = none) := by
  refine ⟨?_, ?_, ?_⟩
  · intro s h
    induction h with
    | init =>
      unfold storeConsistent
      intro u hu
      simp at hu
    | register hash s email password name phone be fid hr ih =>
      exact storeConsistent_register hash s email password name phone be
        fid ih
    | login verify s email password now hr ih =>
      exact storeConsistent_login verify s email password now ih
    | forgot sha tok s email be now hr ih =>
      exact storeConsistent_forgot sha tok s email be now ih
    | reset hash sha s email token npw now hr ih =>
      exact storeConsistent_reset hash sha s email token npw now ih
    | unlock s email hr ih =>
      exact storeConsistent_unlock s email ih
  · intro verify s email password now user hf h200 u hu hid
    unfold loginUser at h200 hu
    by_cases h1 : (email = "" ∨ password = "")
    · rw [if_pos h1] at h200
      simp at h200
    rw [if_neg h1] at h200 hu
    rw [hf] at h200 hu
    dsimp only at h200 hu
    rcases hul : user.lock_until with _ | t
    · rw [hul] at h200 hu
      exact loginCheck_success_clears verify s user password now h200 u hu
        hid
    · rw [hul] at h200 hu
      dsimp only at h200 hu
      by_cases h2 : now < t
      · rw [if_pos h2] at h200
        simp at h200
      · rw [if_neg h2] at h200 hu
        exact loginCheck_success_clears verify s user password now h200 u
          hu hid
  · intro s email he
    exact unlock_clears_mem s email he

/-- Witness for C3: a store reached by one registration is consistent, and
concrete login/unlock calls clear the lockout fields. -/
theorem C3_lock_counter_consistency_witness :
    storeConsistent
      ((registerUser demoHash [] "a@x.com" "Abcdef1!" none none none 1).2)
    ∧ (∀ u ∈ (loginUser demoVerify [baseAcct] "a@x.com" "Abcdef1!" 5).2,
        u.id = baseAcct.id →
        u.failed_login_attempts = 0 ∧ u.lock_until = none)
    ∧ (∀ u ∈ (unlockAccount [lockedAcct] "a@x.com").2,
        u.email = "a@x.com" →
        u.failed_login_attempts = 0 ∧ u.lock_until = none) :=
  ⟨C3_lock_counter_consistency.1 _
      (Reachable.register demoHash [] "a@x.com" "Abcdef1!" none none none 1
        Reachable.init),
   fun u hu hid => C3_lock_counter_consistency.2.1 demoVerify [baseAcct]
      "a@x.com" "Abcdef1!" 5 baseAcct (by decide) (by decide) u hu hid,
   fun u hu hmail => C3_lock_counter_consistency.2.2 [lockedAcct]
      "a@x.com" (by decide) u hu hmail⟩

end AuthTracker
